import Mathlib

/-!
Shallow embedding of the gameplay-simulation layer of `src/game.js`
(a two-car, one-ball arena game): match state machine, vehicle and AI
controllers, boost economy and the per-frame simulation loop.

Conventions of the embedding:
* JS numbers are modelled as real numbers.
* A physics body is modelled by exactly the fields the game logic reads
  or writes: position, linear and angular velocity, the yaw installed by
  `setBodyHeading` (the quaternion is yaw-only in the source), and the
  force accumulator filled by `applyForce`.
* The external physics engine (`world.step`) is an arbitrary function on
  the three dynamic bodies; every frame quantifies over it.
* Purely visual or DOM effects (meshes, tilt, pad opacity, score / timer
  text, camera, messages) are omitted: the game logic never reads them.
* `Math.random()` is modelled by an explicit per-frame sample `rnd`.
-/

noncomputable section

namespace RL

/-! ### Configuration constants (`src/game.js` lines 27-88) -/

def PITCH_LENGTH : ℝ := 80
def PITCH_WIDTH : ℝ := 50
def GOAL_WIDTH : ℝ := 20
def BALL_RADIUS : ℝ := 2
def BOOST_DRAIN_RATE : ℝ := 40
def BOOST_REGEN_RATE : ℝ := 20
def PLAYER_MAX_SPEED : ℝ := 40
def PLAYER_ACCEL : ℝ := 60
def PLAYER_BOOST_ACCEL : ℝ := 140
def PLAYER_TURN_SPEED : ℝ := 2
def JUMP_VELOCITY : ℝ := 22
def GROUND_EPSILON : ℝ := 2.5
def AI_MAX_SPEED : ℝ := 32
def AI_ACCEL : ℝ := 50
def AI_TURN_SPEED : ℝ := 1.6
def RESET_DELAY : ℝ := 2
def MATCH_DURATION : ℝ := 180
def BOOST_PAD_RADIUS : ℝ := 2.5
def BOOST_PAD_COOLDOWN : ℝ := 5

/-- Mass of the player car body (`mass: 40` in `createPlayer`). -/
def playerMass : ℝ := 40

/-- Mass of the AI car body (`mass: 40` in `createAI`). -/
def aiMass : ℝ := 40

/-! ### Numeric helpers -/

/-- `clamp(value, min, max)` from the source:
`Math.max(min, Math.min(max, value))`. -/
def clamp (value lo hi : ℝ) : ℝ := max lo (min hi value)

/-- Truncation toward zero, the rounding used by the JS `%` operator. -/
def jsTrunc (r : ℝ) : ℤ := if 0 ≤ r then ⌊r⌋ else -⌊-r⌋

/-- The JS remainder `a % m` (result carries the sign of the dividend). -/
def jsMod (a m : ℝ) : ℝ := a - m * (jsTrunc (a / m) : ℝ)

/-- `Math.atan2(y, x)`. -/
def atan2 (y x : ℝ) : ℝ :=
  if 0 < x then Real.arctan (y / x)
  else if x < 0 then
    (if 0 ≤ y then Real.arctan (y / x) + Real.pi else Real.arctan (y / x) - Real.pi)
  else if 0 < y then Real.pi / 2
  else if y < 0 then -(Real.pi / 2)
  else 0

/-- The angle reduction `((diff + Math.PI) % (2 * Math.PI)) - Math.PI`
used in `handleAI`. -/
def wrapAngle (d : ℝ) : ℝ := jsMod (d + Real.pi) (2 * Real.pi) - Real.pi

/-! ### State -/

/-- A dynamic physics body, restricted to the fields the game logic
touches.  `yaw` is the yaw angle of the quaternion set by
`setBodyHeading`; `fx, fy, fz` is the force accumulator filled by
`applyForce` and consumed by the engine step. -/
structure Body where
  x : ℝ
  y : ℝ
  z : ℝ
  vx : ℝ
  vy : ℝ
  vz : ℝ
  wx : ℝ
  wy : ℝ
  wz : ℝ
  yaw : ℝ
  fx : ℝ
  fy : ℝ
  fz : ℝ

/-- One boost pad: fixed planar position, `active` flag and
`cooldown` seconds remaining (`boostPads` entries in the source). -/
structure Pad where
  posX : ℝ
  posZ : ℝ
  active : Bool
  cooldown : ℝ

/-- The per-frame keyboard snapshot (`keys[...]` lookups; a missing key
reads as `false`). -/
structure Keys where
  keyR : Bool
  keyA : Bool
  keyD : Bool
  keyW : Bool
  keyS : Bool
  shiftLeft : Bool
  shiftRight : Bool
  space : Bool

/-- The module-level mutable game state of `src/game.js`. -/
structure GameState where
  playerHeading : ℝ
  aiHeading : ℝ
  playerScore : ℕ
  aiScore : ℕ
  playerBoost : ℝ
  isResetting : Bool
  resetTimer : ℝ
  remainingTime : ℝ
  isPaused : Bool
  isMatchOver : Bool
  boostPads : List Pad
  ballBody : Body
  playerBody : Body
  aiBody : Body

/-! ### Body helpers -/

/-- `setBodyHeading(body, heading)`: installs a yaw-only quaternion. -/
def setBodyHeading (b : Body) (h : ℝ) : Body := { b with yaw := h }

/-- `body.applyForce(force, body.position)`: cannon-es accumulates the
world-space force into the body's force accumulator. -/
def applyForce (b : Body) (gx gy gz : ℝ) : Body :=
  { b with fx := b.fx + gx, fy := b.fy + gy, fz := b.fz + gz }

/-- `isOnGround(body)`: `body.position.y <= GROUND_EPSILON`. -/
def isOnGround (b : Body) : Prop := b.y ≤ GROUND_EPSILON

instance (b : Body) : Decidable (isOnGround b) := by
  unfold isOnGround; infer_instance

/-! ### Reset helpers (`src/game.js` lines 647-675) -/

/-- `resetBall()`: centre-kickoff position, zero linear and angular
velocity. -/
def resetBall (s : GameState) : GameState :=
  { s with ballBody :=
    { s.ballBody with
      x := 0
      y := BALL_RADIUS + 0.5
      z := 0
      vx := 0
      vy := 0
      vz := 0
      wx := 0
      wy := 0
      wz := 0 } }

/-- `resetPlayerPosition()`. -/
def resetPlayerPosition (s : GameState) : GameState :=
  { s with
    playerHeading := 0
    playerBody := setBodyHeading
      { s.playerBody with
        x := -PITCH_LENGTH / 2 + 12
        y := 3
        z := 0
        vx := 0
        vy := 0
        vz := 0
        wx := 0
        wy := 0
        wz := 0 } 0 }

/-- `resetAIPosition()`. -/
def resetAIPosition (s : GameState) : GameState :=
  { s with
    aiHeading := Real.pi
    aiBody := setBodyHeading
      { s.aiBody with
        x := PITCH_LENGTH / 2 - 12
        y := 3
        z := 0
        vx := 0
        vy := 0
        vz := 0
        wx := 0
        wy := 0
        wz := 0 } Real.pi }

/-- `resetBoostPads()` (the opacity write is visual only). -/
def resetBoostPads (s : GameState) : GameState :=
  { s with boostPads := s.boostPads.map fun pad =>
      { pad with active := true, cooldown := 0 } }

/-! ### Match timer (`updateTimer`, lines 704-714) -/

def updateTimer (dt : ℝ) (s : GameState) : GameState :=
  if s.isMatchOver = true then s
  else
    let r := s.remainingTime - dt
    if r ≤ 0 then { s with remainingTime := 0, isMatchOver := true }
    else { s with remainingTime := r }

/-! ### Player controller (`handleInput`, lines 784-878) -/

/-- The part of `handleInput` below the ball-reset shortcut and the
reset-window guard (lines 799-877): steering, boost meter, drive force,
rolling-resistance damping and jump.  The boost-bar write and the visual
tilt (lines 844, 864-877) touch only the DOM / mesh and are omitted. -/
def handleInputMain (k : Keys) (dt : ℝ) (s : GameState) : GameState :=
  let h1 := if k.keyA = true then s.playerHeading + PLAYER_TURN_SPEED * dt
            else s.playerHeading
  let h2 := if k.keyD = true then h1 - PLAYER_TURN_SPEED * dt else h1
  let pb := setBodyHeading s.playerBody h2
  let speed := Real.sqrt (pb.vx ^ 2 + pb.vz ^ 2)
  let ta1 : ℝ := if k.keyW = true then 0 + PLAYER_ACCEL else 0
  let ta2 := if k.keyS = true then ta1 - PLAYER_ACCEL * 0.7 else ta1
  let boosting : Prop :=
    (k.shiftLeft = true ∨ k.shiftRight = true) ∧ 0 < s.playerBoost ∧ 0 < ta2
  let ta3 := if boosting then ta2 + PLAYER_BOOST_ACCEL else ta2
  let b1 := if boosting then s.playerBoost - BOOST_DRAIN_RATE * dt
            else s.playerBoost
  let b2 := clamp b1 0 100
  let b3 := if boosting then b2 else clamp (b2 + BOOST_REGEN_RATE * dt) 0 100
  let pb2 :=
    if ta3 ≠ 0 then
      let maxSpeed := if boosting then PLAYER_MAX_SPEED * 1.6 else PLAYER_MAX_SPEED
      if speed < maxSpeed ∨ ta3 < 0 then
        applyForce pb (Real.cos h2 * (ta3 * playerMass)) 0
          (Real.sin h2 * (ta3 * playerMass))
      else pb
    else pb
  let pb3 :=
    if k.keyW = false ∧ k.keyS = false then
      { pb2 with vx := pb2.vx * (1 - 1.8 * dt), vz := pb2.vz * (1 - 1.8 * dt) }
    else pb2
  let pb4 :=
    if k.space = true ∧ isOnGround pb3 then { pb3 with vy := JUMP_VELOCITY }
    else pb3
  { s with playerHeading := h2, playerBoost := b3, playerBody := pb4 }

/-- `handleInput(dt)`: the KeyR ball reset runs first, then the
reset-window guard (increment `resetTimer`, return early while the
delay has not elapsed), then the main controller body. -/
def handleInput (k : Keys) (dt : ℝ) (s : GameState) : GameState :=
  let s1 := if k.keyR = true then resetBall s else s
  if s1.isResetting = true then
    let rt := s1.resetTimer + dt
    if RESET_DELAY ≤ rt then
      handleInputMain k dt { s1 with resetTimer := rt, isResetting := false }
    else { s1 with resetTimer := rt }
  else handleInputMain k dt s1

/-! ### AI controller (`handleAI`, lines 882-942) -/

def aiToBallX (s : GameState) : ℝ := s.ballBody.x - s.aiBody.x

def aiToBallZ (s : GameState) : ℝ := s.ballBody.z - s.aiBody.z

/-- `toBall.length()` (the y component is zeroed in the source). -/
def aiDistToBall (s : GameState) : ℝ :=
  Real.sqrt (aiToBallX s ^ 2 + aiToBallZ s ^ 2)

/-- `Math.atan2(toBall.z, toBall.x)` after the conditional normalisation
`if (distToBall > 0.1) toBall.scale(1 / distToBall, toBall)`. -/
def aiDesiredHeading (s : GameState) : ℝ :=
  if 0.1 < aiDistToBall s then
    atan2 (aiToBallZ s / aiDistToBall s) (aiToBallX s / aiDistToBall s)
  else atan2 (aiToBallZ s) (aiToBallX s)

/-- The angular difference `desiredHeading - aiHeading` after the
`((diff + PI) % (2 PI)) - PI` reduction, before clamping. -/
def aiWrappedDiff (s : GameState) : ℝ :=
  wrapAngle (aiDesiredHeading s - s.aiHeading)

def handleAI (dt rnd : ℝ) (s : GameState) : GameState :=
  let maxTurn := AI_TURN_SPEED * dt
  let diff := clamp (aiWrappedDiff s) (-maxTurn) maxTurn
  let h := s.aiHeading + diff
  let ab := setBodyHeading s.aiBody h
  let speed := Real.sqrt (ab.vx ^ 2 + ab.vz ^ 2)
  let accel :=
    if ¬ 0 < s.ballBody.x then
      (if 15 < aiDistToBall s then AI_ACCEL else AI_ACCEL * 0.4)
    else AI_ACCEL
  let ab2 :=
    if speed < AI_MAX_SPEED then
      applyForce ab (Real.cos h * (accel * aiMass)) 0
        (Real.sin h * (accel * aiMass))
    else ab
  let ab3 :=
    if aiDistToBall s < 7 ∧ isOnGround ab2 ∧ rnd < 0.4 * dt then
      { ab2 with vy := JUMP_VELOCITY * 0.9 }
    else ab2
  let ab4 :=
    if 30 < aiDistToBall s then
      { ab3 with vx := ab3.vx * (1 - 1.5 * dt), vz := ab3.vz * (1 - 1.5 * dt) }
    else ab3
  { s with aiHeading := h, aiBody := ab4 }

/-! ### Goals and reset (`handleGoalCheck` / `onGoalScored`, lines 946-984) -/

def goalXPlayer : ℝ := -PITCH_LENGTH / 2 - 1

def goalXAI : ℝ := PITCH_LENGTH / 2 + 1

/-- `onGoalScored(msg)` (the message display is external): start the
reset window and return everything to kickoff layout. -/
def onGoalScored (s : GameState) : GameState :=
  resetBoostPads (resetAIPosition (resetPlayerPosition
    (resetBall { s with isResetting := true, resetTimer := 0 })))

def handleGoalCheck (dt : ℝ) (s : GameState) : GameState :=
  let x := s.ballBody.x
  let z := s.ballBody.z
  let s1 :=
    if s.isResetting = false ∧ |z| < GOAL_WIDTH / 2 then
      if x < goalXPlayer then onGoalScored { s with aiScore := s.aiScore + 1 }
      else if goalXAI < x then
        onGoalScored { s with playerScore := s.playerScore + 1 }
      else s
    else s
  if s1.isResetting = true then
    let rt := s1.resetTimer + dt
    if RESET_DELAY ≤ rt then { s1 with resetTimer := rt, isResetting := false }
    else { s1 with resetTimer := rt }
  else s1

/-! ### Boost economy (`updateBoostPads` / `handleBoostPickups`, lines 988-1017) -/

/-- Per-pad cooldown decay (the opacity write is visual only). -/
def updatePad (dt : ℝ) (pad : Pad) : Pad :=
  if pad.active = true then pad
  else
    let c := pad.cooldown - dt
    if c ≤ 0 then { pad with active := true, cooldown := 0 }
    else { pad with cooldown := c }

def updateBoostPads (dt : ℝ) (s : GameState) : GameState :=
  { s with boostPads := s.boostPads.map (updatePad dt) }

/-- The pickup test for one pad: active, and squared planar distance
from the player within `BOOST_PAD_RADIUS ^ 2`. -/
def padHit (px pz : ℝ) (pad : Pad) : Prop :=
  pad.active = true ∧
    (px - pad.posX) ^ 2 + (pz - pad.posZ) ^ 2 ≤ BOOST_PAD_RADIUS ^ 2

instance (px pz : ℝ) (pad : Pad) : Decidable (padHit px pz pad) := by
  unfold padHit; infer_instance

/-- One iteration of the `forEach` in `handleBoostPickups`, threading the
player boost value and accumulating the updated pad list in order. -/
def pickupStep (px pz : ℝ) (acc : ℝ × List Pad) (pad : Pad) : ℝ × List Pad :=
  if padHit px pz pad then
    (100, acc.2 ++ [{ pad with active := false, cooldown := BOOST_PAD_COOLDOWN }])
  else (acc.1, acc.2 ++ [pad])

def handleBoostPickups (s : GameState) : GameState :=
  let r := s.boostPads.foldl (pickupStep s.playerBody.x s.playerBody.z)
    (s.playerBoost, [])
  { s with playerBoost := r.1, boostPads := r.2 }

/-! ### Frame loop (`stepGame`, lines 728-742), pause and restart -/

/-- The game-logic part of one frame, in source order: timer, player
input, AI, goal check, pad cooldowns, pickups. -/
def logicStep (k : Keys) (dt rnd : ℝ) (s : GameState) : GameState :=
  handleBoostPickups (updateBoostPads dt
    (handleGoalCheck dt (handleAI dt rnd (handleInput k dt (updateTimer dt s)))))

/-- The external `world.step(1/60, dt, 3)`: an arbitrary transformation
of the three dynamic bodies (ball, player, AI).  It touches nothing
else in the game state. -/
def applyPhysics (phys : Body → Body → Body → Body × Body × Body)
    (s : GameState) : GameState :=
  let r := phys s.ballBody s.playerBody s.aiBody
  { s with ballBody := r.1, playerBody := r.2.1, aiBody := r.2.2 }

/-- `stepGame(dt)`: checked-once pause gate, then the logic pipeline,
then the physics step (`syncVisuals` / `updateCamera` are visual). -/
def stepGame (k : Keys) (dt rnd : ℝ)
    (phys : Body → Body → Body → Body × Body × Body)
    (s : GameState) : GameState :=
  if s.isPaused = true then s
  else applyPhysics phys (logicStep k dt rnd s)

/-- `togglePause()` (the overlay write is DOM only). -/
def togglePause (s : GameState) : GameState :=
  { s with isPaused := !s.isPaused }

/-- `restartMatch()`. -/
def restartMatch (s : GameState) : GameState :=
  { resetBoostPads (resetAIPosition (resetPlayerPosition (resetBall s))) with
    playerScore := 0
    aiScore := 0
    remainingTime := MATCH_DURATION
    isMatchOver := false
    playerBoost := 100
    isPaused := false }

/-- One frame of external input: the key snapshot, the elapsed time, the
`Math.random()` sample and the physics-engine effect. -/
structure Frame where
  keys : Keys
  dt : ℝ
  rnd : ℝ
  phys : Body → Body → Body → Body × Body × Body

/-- Run a sequence of frames through `stepGame`. -/
def runFrames (fs : List Frame) (s : GameState) : GameState :=
  fs.foldl (fun t f => stepGame f.keys f.dt f.rnd f.phys t) s

/-! ### Concrete states and inputs -/

/-- The identity physics step (bodies returned unchanged). -/
def physId : Body → Body → Body → Body × Body × Body := fun b p a => (b, p, a)

def keysNone : Keys :=
  { keyR := false
    keyA := false
    keyD := false
    keyW := false
    keyS := false
    shiftLeft := false
    shiftRight := false
    space := false }

def keysA : Keys := { keysNone with keyA := true }

def keysR : Keys := { keysNone with keyR := true }

def initBall : Body :=
  { x := 0
    y := BALL_RADIUS + 0.5
    z := 0
    vx := 0
    vy := 0
    vz := 0
    wx := 0
    wy := 0
    wz := 0
    yaw := 0
    fx := 0
    fy := 0
    fz := 0 }

def initPlayer : Body :=
  { initBall with
    x := -PITCH_LENGTH / 2 + 12
    y := 3 }

def initAI : Body :=
  { initBall with
    x := PITCH_LENGTH / 2 - 12
    y := 3
    yaw := Real.pi }

def initPads : List Pad :=
  [ { posX := -PITCH_LENGTH / 4, posZ := -PITCH_WIDTH / 3, active := true, cooldown := 0 },
    { posX := -PITCH_LENGTH / 4, posZ := PITCH_WIDTH / 3, active := true, cooldown := 0 },
    { posX := PITCH_LENGTH / 4, posZ := -PITCH_WIDTH / 3, active := true, cooldown := 0 },
    { posX := PITCH_LENGTH / 4, posZ := PITCH_WIDTH / 3, active := true, cooldown := 0 } ]

/-- The game state right after `init()`: kickoff layout, full boost,
full timer, not paused, not resetting. -/
def initState : GameState :=
  { playerHeading := 0
    aiHeading := Real.pi
    playerScore := 0
    aiScore := 0
    playerBoost := 100
    isResetting := false
    resetTimer := 0
    remainingTime := MATCH_DURATION
    isPaused := false
    isMatchOver := false
    boostPads := initPads
    ballBody := initBall
    playerBody := initPlayer
    aiBody := initAI }

/-- Kickoff layout with the goal-reset window just started. -/
def resettingState : GameState := { initState with isResetting := true }

/-- Kickoff layout at full time, with the ball inside the player goal. -/
def fullTimeState : GameState :=
  { initState with
    isMatchOver := true
    remainingTime := 0
    ballBody := { initBall with x := -45 } }

/-- Kickoff layout with the AI at the origin and the ball diagonally
behind it, so that the desired heading is `-3 pi / 4`. -/
def aiWrapState : GameState :=
  { initState with
    aiBody := { initAI with x := 0 }
    ballBody := { initBall with x := -1, z := -1 } }

/-- The per-frame invariant of claim C1: boost meter within `[0, 100]`,
match timer within `[0, MATCH_DURATION]`. -/
def BoostTimerInv (s : GameState) : Prop :=
  0 ≤ s.playerBoost ∧ s.playerBoost ≤ 100 ∧
    0 ≤ s.remainingTime ∧ s.remainingTime ≤ MATCH_DURATION

/-! ### Elementary facts about `clamp` -/

lemma clamp_le (x lo hi : ℝ) (h : lo ≤ hi) : clamp x lo hi ≤ hi :=
  max_le h (min_le_left _ _)

lemma le_clamp (x lo hi : ℝ) : lo ≤ clamp x lo hi := le_max_left _ _

lemma abs_clamp_le (x m : ℝ) (h : 0 ≤ m) : |clamp x (-m) m| ≤ m :=
  abs_le.mpr ⟨le_clamp _ _ _, clamp_le _ _ _ (by linarith)⟩

/-! ### Which fields each frame stage leaves untouched -/

section Projections

variable (k : Keys) (dt rnd : ℝ) (s : GameState)

@[simp] lemma updateTimer_playerScore :
    (updateTimer dt s).playerScore = s.playerScore := by
  simp only [updateTimer]; split_ifs <;> rfl

@[simp] lemma updateTimer_aiScore : (updateTimer dt s).aiScore = s.aiScore := by
  simp only [updateTimer]; split_ifs <;> rfl

@[simp] lemma updateTimer_playerBoost :
    (updateTimer dt s).playerBoost = s.playerBoost := by
  simp only [updateTimer]; split_ifs <;> rfl

@[simp] lemma updateTimer_isResetting :
    (updateTimer dt s).isResetting = s.isResetting := by
  simp only [updateTimer]; split_ifs <;> rfl

@[simp] lemma updateTimer_resetTimer :
    (updateTimer dt s).resetTimer = s.resetTimer := by
  simp only [updateTimer]; split_ifs <;> rfl

@[simp] lemma updateTimer_isPaused : (updateTimer dt s).isPaused = s.isPaused := by
  simp only [updateTimer]; split_ifs <;> rfl

@[simp] lemma updateTimer_boostPads :
    (updateTimer dt s).boostPads = s.boostPads := by
  simp only [updateTimer]; split_ifs <;> rfl

@[simp] lemma updateTimer_ballBody : (updateTimer dt s).ballBody = s.ballBody := by
  simp only [updateTimer]; split_ifs <;> rfl

@[simp] lemma updateTimer_playerBody :
    (updateTimer dt s).playerBody = s.playerBody := by
  simp only [updateTimer]; split_ifs <;> rfl

@[simp] lemma updateTimer_aiBody : (updateTimer dt s).aiBody = s.aiBody := by
  simp only [updateTimer]; split_ifs <;> rfl

@[simp] lemma updateTimer_playerHeading :
    (updateTimer dt s).playerHeading = s.playerHeading := by
  simp only [updateTimer]; split_ifs <;> rfl

@[simp] lemma updateTimer_aiHeading :
    (updateTimer dt s).aiHeading = s.aiHeading := by
  simp only [updateTimer]; split_ifs <;> rfl

lemma updateTimer_of_matchOver (h : s.isMatchOver = true) :
    updateTimer dt s = s := by
  simp only [updateTimer]; simp [h]

@[simp] lemma handleInputMain_aiHeading :
    (handleInputMain k dt s).aiHeading = s.aiHeading := rfl

@[simp] lemma handleInputMain_playerScore :
    (handleInputMain k dt s).playerScore = s.playerScore := rfl

@[simp] lemma handleInputMain_aiScore :
    (handleInputMain k dt s).aiScore = s.aiScore := rfl

@[simp] lemma handleInputMain_isResetting :
    (handleInputMain k dt s).isResetting = s.isResetting := rfl

@[simp] lemma handleInputMain_resetTimer :
    (handleInputMain k dt s).resetTimer = s.resetTimer := rfl

@[simp] lemma handleInputMain_remainingTime :
    (handleInputMain k dt s).remainingTime = s.remainingTime := rfl

@[simp] lemma handleInputMain_isPaused :
    (handleInputMain k dt s).isPaused = s.isPaused := rfl

@[simp] lemma handleInputMain_isMatchOver :
    (handleInputMain k dt s).isMatchOver = s.isMatchOver := rfl

@[simp] lemma handleInputMain_boostPads :
    (handleInputMain k dt s).boostPads = s.boostPads := rfl

@[simp] lemma handleInputMain_ballBody :
    (handleInputMain k dt s).ballBody = s.ballBody := rfl

@[simp] lemma handleInputMain_aiBody :
    (handleInputMain k dt s).aiBody = s.aiBody := rfl

@[simp] lemma resetBall_playerScore : (resetBall s).playerScore = s.playerScore := rfl

@[simp] lemma resetBall_aiScore : (resetBall s).aiScore = s.aiScore := rfl

@[simp] lemma resetBall_playerBoost : (resetBall s).playerBoost = s.playerBoost := rfl

@[simp] lemma resetBall_isResetting : (resetBall s).isResetting = s.isResetting := rfl

@[simp] lemma resetBall_resetTimer : (resetBall s).resetTimer = s.resetTimer := rfl

@[simp] lemma resetBall_remainingTime :
    (resetBall s).remainingTime = s.remainingTime := rfl

@[simp] lemma resetBall_isPaused : (resetBall s).isPaused = s.isPaused := rfl

@[simp] lemma resetBall_isMatchOver : (resetBall s).isMatchOver = s.isMatchOver := rfl

@[simp] lemma resetBall_boostPads : (resetBall s).boostPads = s.boostPads := rfl

@[simp] lemma resetBall_playerBody : (resetBall s).playerBody = s.playerBody := rfl

@[simp] lemma resetBall_aiBody : (resetBall s).aiBody = s.aiBody := rfl

@[simp] lemma resetBall_playerHeading :
    (resetBall s).playerHeading = s.playerHeading := rfl

@[simp] lemma resetBall_aiHeading : (resetBall s).aiHeading = s.aiHeading := rfl

@[simp] lemma handleInput_aiHeading :
    (handleInput k dt s).aiHeading = s.aiHeading := by
  simp only [handleInput]; split_ifs <;> simp

@[simp] lemma handleInput_playerScore :
    (handleInput k dt s).playerScore = s.playerScore := by
  simp only [handleInput]; split_ifs <;> simp

@[simp] lemma handleInput_aiScore : (handleInput k dt s).aiScore = s.aiScore := by
  simp only [handleInput]; split_ifs <;> simp

@[simp] lemma handleInput_remainingTime :
    (handleInput k dt s).remainingTime = s.remainingTime := by
  simp only [handleInput]; split_ifs <;> simp

@[simp] lemma handleInput_isPaused : (handleInput k dt s).isPaused = s.isPaused := by
  simp only [handleInput]; split_ifs <;> simp

@[simp] lemma handleInput_isMatchOver :
    (handleInput k dt s).isMatchOver = s.isMatchOver := by
  simp only [handleInput]; split_ifs <;> simp

@[simp] lemma handleInput_boostPads :
    (handleInput k dt s).boostPads = s.boostPads := by
  simp only [handleInput]; split_ifs <;> simp

@[simp] lemma handleInput_aiBody : (handleInput k dt s).aiBody = s.aiBody := by
  simp only [handleInput]; split_ifs <;> simp

@[simp] lemma handleAI_playerHeading :
    (handleAI dt rnd s).playerHeading = s.playerHeading := rfl

@[simp] lemma handleAI_playerScore :
    (handleAI dt rnd s).playerScore = s.playerScore := rfl

@[simp] lemma handleAI_aiScore : (handleAI dt rnd s).aiScore = s.aiScore := rfl

@[simp] lemma handleAI_playerBoost :
    (handleAI dt rnd s).playerBoost = s.playerBoost := rfl

@[simp] lemma handleAI_isResetting :
    (handleAI dt rnd s).isResetting = s.isResetting := rfl

@[simp] lemma handleAI_resetTimer :
    (handleAI dt rnd s).resetTimer = s.resetTimer := rfl

@[simp] lemma handleAI_remainingTime :
    (handleAI dt rnd s).remainingTime = s.remainingTime := rfl

@[simp] lemma handleAI_isPaused : (handleAI dt rnd s).isPaused = s.isPaused := rfl

@[simp] lemma handleAI_isMatchOver :
    (handleAI dt rnd s).isMatchOver = s.isMatchOver := rfl

@[simp] lemma handleAI_boostPads : (handleAI dt rnd s).boostPads = s.boostPads := rfl

@[simp] lemma handleAI_ballBody : (handleAI dt rnd s).ballBody = s.ballBody := rfl

@[simp] lemma handleAI_playerBody :
    (handleAI dt rnd s).playerBody = s.playerBody := rfl

@[simp] lemma onGoalScored_playerScore :
    (onGoalScored s).playerScore = s.playerScore := rfl

@[simp] lemma onGoalScored_aiScore : (onGoalScored s).aiScore = s.aiScore := rfl

@[simp] lemma onGoalScored_playerBoost :
    (onGoalScored s).playerBoost = s.playerBoost := rfl

@[simp] lemma onGoalScored_remainingTime :
    (onGoalScored s).remainingTime = s.remainingTime := rfl

@[simp] lemma onGoalScored_isMatchOver :
    (onGoalScored s).isMatchOver = s.isMatchOver := rfl

@[simp] lemma onGoalScored_isPaused : (onGoalScored s).isPaused = s.isPaused := rfl

@[simp] lemma onGoalScored_isResetting : (onGoalScored s).isResetting = true := rfl

@[simp] lemma onGoalScored_resetTimer : (onGoalScored s).resetTimer = 0 := rfl

@[simp] lemma handleGoalCheck_playerBoost :
    (handleGoalCheck dt s).playerBoost = s.playerBoost := by
  simp only [handleGoalCheck]; split_ifs <;> simp

@[simp] lemma handleGoalCheck_remainingTime :
    (handleGoalCheck dt s).remainingTime = s.remainingTime := by
  simp only [handleGoalCheck]; split_ifs <;> simp

@[simp] lemma handleGoalCheck_isMatchOver :
    (handleGoalCheck dt s).isMatchOver = s.isMatchOver := by
  simp only [handleGoalCheck]; split_ifs <;> simp

@[simp] lemma handleGoalCheck_isPaused :
    (handleGoalCheck dt s).isPaused = s.isPaused := by
  simp only [handleGoalCheck]; split_ifs <;> simp

lemma handleGoalCheck_reset_hold (h : s.isResetting = true)
    (h2 : ¬ RESET_DELAY ≤ s.resetTimer + dt) :
    handleGoalCheck dt s = { s with resetTimer := s.resetTimer + dt } := by
  simp only [handleGoalCheck]; simp [h, h2]

lemma handleGoalCheck_reset_expire (h : s.isResetting = true)
    (h2 : RESET_DELAY ≤ s.resetTimer + dt) :
    handleGoalCheck dt s =
      { s with resetTimer := s.resetTimer + dt, isResetting := false } := by
  simp only [handleGoalCheck]; simp [h, h2]

lemma handleGoalCheck_no_goal (h : s.isResetting = false)
    (h1 : ¬ s.ballBody.x < goalXPlayer) (h2 : ¬ goalXAI < s.ballBody.x) :
    handleGoalCheck dt s = s := by
  simp only [handleGoalCheck]; split_ifs <;> simp_all

@[simp] lemma updateBoostPads_playerHeading :
    (updateBoostPads dt s).playerHeading = s.playerHeading := rfl

@[simp] lemma updateBoostPads_aiHeading :
    (updateBoostPads dt s).aiHeading = s.aiHeading := rfl

@[simp] lemma updateBoostPads_playerScore :
    (updateBoostPads dt s).playerScore = s.playerScore := rfl

@[simp] lemma updateBoostPads_aiScore :
    (updateBoostPads dt s).aiScore = s.aiScore := rfl

@[simp] lemma updateBoostPads_playerBoost :
    (updateBoostPads dt s).playerBoost = s.playerBoost := rfl

@[simp] lemma updateBoostPads_isResetting :
    (updateBoostPads dt s).isResetting = s.isResetting := rfl

@[simp] lemma updateBoostPads_resetTimer :
    (updateBoostPads dt s).resetTimer = s.resetTimer := rfl

@[simp] lemma updateBoostPads_remainingTime :
    (updateBoostPads dt s).remainingTime = s.remainingTime := rfl

@[simp] lemma updateBoostPads_isPaused :
    (updateBoostPads dt s).isPaused = s.isPaused := rfl

@[simp] lemma updateBoostPads_isMatchOver :
    (updateBoostPads dt s).isMatchOver = s.isMatchOver := rfl

@[simp] lemma updateBoostPads_ballBody :
    (updateBoostPads dt s).ballBody = s.ballBody := rfl

@[simp] lemma updateBoostPads_playerBody :
    (updateBoostPads dt s).playerBody = s.playerBody := rfl

@[simp] lemma updateBoostPads_aiBody :
    (updateBoostPads dt s).aiBody = s.aiBody := rfl

@[simp] lemma handleBoostPickups_playerHeading :
    (handleBoostPickups s).playerHeading = s.playerHeading := rfl

@[simp] lemma handleBoostPickups_aiHeading :
    (handleBoostPickups s).aiHeading = s.aiHeading := rfl

@[simp] lemma handleBoostPickups_playerScore :
    (handleBoostPickups s).playerScore = s.playerScore := rfl

@[simp] lemma handleBoostPickups_aiScore :
    (handleBoostPickups s).aiScore = s.aiScore := rfl

@[simp] lemma handleBoostPickups_isResetting :
    (handleBoostPickups s).isResetting = s.isResetting := rfl

@[simp] lemma handleBoostPickups_resetTimer :
    (handleBoostPickups s).resetTimer = s.resetTimer := rfl

@[simp] lemma handleBoostPickups_remainingTime :
    (handleBoostPickups s).remainingTime = s.remainingTime := rfl

@[simp] lemma handleBoostPickups_isPaused :
    (handleBoostPickups s).isPaused = s.isPaused := rfl

@[simp] lemma handleBoostPickups_isMatchOver :
    (handleBoostPickups s).isMatchOver = s.isMatchOver := rfl

@[simp] lemma handleBoostPickups_ballBody :
    (handleBoostPickups s).ballBody = s.ballBody := rfl

@[simp] lemma handleBoostPickups_playerBody :
    (handleBoostPickups s).playerBody = s.playerBody := rfl

@[simp] lemma handleBoostPickups_aiBody :
    (handleBoostPickups s).aiBody = s.aiBody := rfl

@[simp] lemma applyPhysics_playerHeading (phys) :
    (applyPhysics phys s).playerHeading = s.playerHeading := rfl

@[simp] lemma applyPhysics_aiHeading (phys) :
    (applyPhysics phys s).aiHeading = s.aiHeading := rfl

@[simp] lemma applyPhysics_playerScore (phys) :
    (applyPhysics phys s).playerScore = s.playerScore := rfl

@[simp] lemma applyPhysics_aiScore (phys) :
    (applyPhysics phys s).aiScore = s.aiScore := rfl

@[simp] lemma applyPhysics_playerBoost (phys) :
    (applyPhysics phys s).playerBoost = s.playerBoost := rfl

@[simp] lemma applyPhysics_isResetting (phys) :
    (applyPhysics phys s).isResetting = s.isResetting := rfl

@[simp] lemma applyPhysics_resetTimer (phys) :
    (applyPhysics phys s).resetTimer = s.resetTimer := rfl

@[simp] lemma applyPhysics_remainingTime (phys) :
    (applyPhysics phys s).remainingTime = s.remainingTime := rfl

@[simp] lemma applyPhysics_isPaused (phys) :
    (applyPhysics phys s).isPaused = s.isPaused := rfl

@[simp] lemma applyPhysics_isMatchOver (phys) :
    (applyPhysics phys s).isMatchOver = s.isMatchOver := rfl

@[simp] lemma applyPhysics_boostPads (phys) :
    (applyPhysics phys s).boostPads = s.boostPads := rfl

lemma stepGame_not_paused (phys) (h : s.isPaused = false) :
    stepGame k dt rnd phys s = applyPhysics phys (logicStep k dt rnd s) := by
  simp only [stepGame]; simp [h]

lemma stepGame_paused (phys) (h : s.isPaused = true) :
    stepGame k dt rnd phys s = s := by
  simp only [stepGame]; simp [h]

end Projections

/-! ### Case analysis of `handleInput` on the reset window -/

lemma handleInput_of_not_resetting (k : Keys) (dt : ℝ) (s : GameState)
    (h : s.isResetting = false) :
    handleInput k dt s
      = handleInputMain k dt (if k.keyR = true then resetBall s else s) := by
  have hs1 : (if k.keyR = true then resetBall s else s).isResetting = false := by
    split_ifs <;> simpa
  simp only [handleInput, hs1]
  simp

lemma handleInput_reset_hold (k : Keys) (dt : ℝ) (s : GameState)
    (h : s.isResetting = true) (h2 : ¬ RESET_DELAY ≤ s.resetTimer + dt) :
    handleInput k dt s
      = { (if k.keyR = true then resetBall s else s) with
          resetTimer := s.resetTimer + dt } := by
  have hs1 : (if k.keyR = true then resetBall s else s).isResetting = true := by
    split_ifs <;> simpa
  have hrt : (if k.keyR = true then resetBall s else s).resetTimer = s.resetTimer := by
    split_ifs <;> simp
  simp only [handleInput, hs1, hrt, if_true]
  rw [if_neg h2]

lemma handleInput_reset_expire (k : Keys) (dt : ℝ) (s : GameState)
    (h : s.isResetting = true) (h2 : RESET_DELAY ≤ s.resetTimer + dt) :
    handleInput k dt s
      = handleInputMain k dt
          { (if k.keyR = true then resetBall s else s) with
            resetTimer := s.resetTimer + dt, isResetting := false } := by
  have hs1 : (if k.keyR = true then resetBall s else s).isResetting = true := by
    split_ifs <;> simpa
  have hrt : (if k.keyR = true then resetBall s else s).resetTimer = s.resetTimer := by
    split_ifs <;> simp
  simp only [handleInput, hs1, hrt, if_true]
  rw [if_pos h2]

/-! ### Boost-meter bounds through the input handler -/

lemma handleInputMain_boost_bound (k : Keys) (dt : ℝ) (s : GameState) :
    0 ≤ (handleInputMain k dt s).playerBoost ∧
      (handleInputMain k dt s).playerBoost ≤ 100 := by
  simp only [handleInputMain]
  refine ⟨?_, ?_⟩ <;> split_ifs <;>
    first
      | exact le_clamp _ _ _
      | exact clamp_le _ _ _ (by norm_num)

lemma handleInput_boost_bound (k : Keys) (dt : ℝ) (s : GameState)
    (hb0 : 0 ≤ s.playerBoost) (hb1 : s.playerBoost ≤ 100) :
    0 ≤ (handleInput k dt s).playerBoost ∧
      (handleInput k dt s).playerBoost ≤ 100 := by
  by_cases hr : s.isResetting = true
  · by_cases hd : RESET_DELAY ≤ s.resetTimer + dt
    · rw [handleInput_reset_expire k dt s hr hd]
      exact handleInputMain_boost_bound _ _ _
    · rw [handleInput_reset_hold k dt s hr hd]
      split_ifs <;> exact ⟨hb0, hb1⟩
  · rw [handleInput_of_not_resetting k dt s (by simpa using hr)]
    exact handleInputMain_boost_bound _ _ _

/-! ### The pickup fold of `handleBoostPickups` -/

lemma pickup_foldl_boost_cases (px pz : ℝ) (pads : List Pad) (b : ℝ)
    (acc : List Pad) :
    (pads.foldl (pickupStep px pz) (b, acc)).1 = b ∨
      (pads.foldl (pickupStep px pz) (b, acc)).1 = 100 := by
  induction pads generalizing b acc with
  | nil => exact Or.inl rfl
  | cons p t ih =>
      simp only [List.foldl_cons, pickupStep]
      split_ifs with h
      · rcases ih 100 (acc ++ [{ p with active := false, cooldown := BOOST_PAD_COOLDOWN }])
          with h1 | h1 <;> exact Or.inr h1
      · exact ih b (acc ++ [p])

lemma pickup_foldl_boost_of_none (px pz : ℝ) (pads : List Pad) (b : ℝ)
    (acc : List Pad) (h : ∀ pad ∈ pads, ¬ padHit px pz pad) :
    (pads.foldl (pickupStep px pz) (b, acc)).1 = b := by
  induction pads generalizing acc with
  | nil => rfl
  | cons p t ih =>
      have hp : ¬ padHit px pz p := h p (by simp)
      simp only [List.foldl_cons, pickupStep, if_neg hp]
      exact ih (acc ++ [p]) (fun q hq => h q (List.mem_cons_of_mem p hq))

lemma pickup_foldl_boost_of_hit (px pz : ℝ) (pads : List Pad) (b : ℝ)
    (acc : List Pad) (h : ∃ pad ∈ pads, padHit px pz pad) :
    (pads.foldl (pickupStep px pz) (b, acc)).1 = 100 := by
  induction pads generalizing b acc with
  | nil => simp at h
  | cons p t ih =>
      simp only [List.foldl_cons, pickupStep]
      by_cases hp : padHit px pz p
      · rw [if_pos hp]
        rcases pickup_foldl_boost_cases px pz t 100
          (acc ++ [{ p with active := false, cooldown := BOOST_PAD_COOLDOWN }])
          with h1 | h1 <;> exact h1
      · rw [if_neg hp]
        rcases h with ⟨q, hq, hqh⟩
        rcases List.mem_cons.mp hq with rfl | hq2
        · exact absurd hqh hp
        · exact ih b (acc ++ [p]) ⟨q, hq2, hqh⟩

lemma pickup_foldl_pads (px pz : ℝ) (pads : List Pad) (b : ℝ)
    (acc : List Pad) :
    (pads.foldl (pickupStep px pz) (b, acc)).2
      = acc ++ pads.map (fun pad =>
          if padHit px pz pad then
            { pad with active := false, cooldown := BOOST_PAD_COOLDOWN }
          else pad) := by
  induction pads generalizing b acc with
  | nil => simp
  | cons p t ih =>
      simp only [List.foldl_cons, pickupStep, List.map_cons]
      split_ifs with h
      · rw [ih]; simp
      · rw [ih]; simp

lemma handleBoostPickups_boost_cases (s : GameState) :
    (handleBoostPickups s).playerBoost = s.playerBoost ∨
      (handleBoostPickups s).playerBoost = 100 := by
  simp only [handleBoostPickups]
  exact pickup_foldl_boost_cases _ _ _ _ _

/-! ### The angle reduction `wrapAngle` -/

lemma jsMod_mem_of_nonneg (a m : ℝ) (ha : 0 ≤ a) (hm : 0 < m) :
    0 ≤ jsMod a m ∧ jsMod a m < m := by
  have hq : (0 : ℝ) ≤ a / m := div_nonneg ha hm.le
  have ht : jsTrunc (a / m) = ⌊a / m⌋ := if_pos hq
  unfold jsMod
  rw [ht]
  constructor
  · have := Int.sub_floor_div_mul_nonneg a hm
    linarith [this]
  · have := Int.sub_floor_div_mul_lt a hm
    linarith [this]

lemma wrapAngle_mem (d : ℝ) (h : -Real.pi ≤ d) :
    -Real.pi ≤ wrapAngle d ∧ wrapAngle d < Real.pi := by
  have hm : (0 : ℝ) < 2 * Real.pi := by positivity
  have ha : (0 : ℝ) ≤ d + Real.pi := by linarith
  have hj := jsMod_mem_of_nonneg (d + Real.pi) (2 * Real.pi) ha hm
  unfold wrapAngle
  constructor <;> [linarith [hj.1]; linarith [hj.2]]

/-- The per-frame change of the AI heading is exactly the clamped
wrapped difference. -/
lemma handleAI_aiHeading_eq (dt rnd : ℝ) (s : GameState) :
    (handleAI dt rnd s).aiHeading
      = s.aiHeading
        + clamp (aiWrappedDiff s) (-(AI_TURN_SPEED * dt)) (AI_TURN_SPEED * dt) := rfl

/-! ### Further facts about `handleGoalCheck` and `handleInput` -/

lemma handleGoalCheck_scores_of_resetting (dt : ℝ) (s : GameState)
    (h : s.isResetting = true) :
    (handleGoalCheck dt s).playerScore = s.playerScore ∧
      (handleGoalCheck dt s).aiScore = s.aiScore := by
  by_cases hd : RESET_DELAY ≤ s.resetTimer + dt
  · rw [handleGoalCheck_reset_expire dt s h hd]; exact ⟨rfl, rfl⟩
  · rw [handleGoalCheck_reset_hold dt s h hd]; exact ⟨rfl, rfl⟩

lemma handleGoalCheck_scores_le (dt : ℝ) (s : GameState) :
    (handleGoalCheck dt s).playerScore + (handleGoalCheck dt s).aiScore
      ≤ s.playerScore + s.aiScore + 1 := by
  simp only [handleGoalCheck]
  split_ifs <;> simp <;> omega

lemma handleGoalCheck_ballBody_of_infield (dt : ℝ) (s : GameState)
    (h1 : ¬ s.ballBody.x < goalXPlayer) (h2 : ¬ goalXAI < s.ballBody.x) :
    (handleGoalCheck dt s).ballBody = s.ballBody := by
  simp only [handleGoalCheck]
  split_ifs <;> simp_all

lemma handleInput_ballBody_keyR (k : Keys) (dt : ℝ) (s : GameState)
    (hR : k.keyR = true) :
    (handleInput k dt s).ballBody = (resetBall s).ballBody := by
  by_cases hr : s.isResetting = true
  · by_cases hd : RESET_DELAY ≤ s.resetTimer + dt
    · rw [handleInput_reset_expire k dt s hr hd]; simp [hR]
    · rw [handleInput_reset_hold k dt s hr hd]; simp [hR]
  · rw [handleInput_of_not_resetting k dt s (by simpa using hr)]; simp [hR]

lemma handleInput_resetState_hold (k : Keys) (dt : ℝ) (s : GameState)
    (h : s.isResetting = true) (h2 : ¬ RESET_DELAY ≤ s.resetTimer + dt) :
    (handleInput k dt s).isResetting = true ∧
      (handleInput k dt s).resetTimer = s.resetTimer + dt := by
  rw [handleInput_reset_hold k dt s h h2]
  split_ifs <;> exact ⟨by simpa, rfl⟩

/-! ### Preservation of the C1 invariant by one frame -/

lemma updateTimer_time_bound (dt : ℝ) (s : GameState) (hdt : 0 ≤ dt)
    (ht0 : 0 ≤ s.remainingTime) (ht1 : s.remainingTime ≤ MATCH_DURATION) :
    0 ≤ (updateTimer dt s).remainingTime ∧
      (updateTimer dt s).remainingTime ≤ MATCH_DURATION := by
  simp only [updateTimer]
  split_ifs with h1 h2
  · exact ⟨ht0, ht1⟩
  · constructor <;> norm_num [MATCH_DURATION]
  · push_neg at h2
    constructor
    · simpa using h2.le
    · simpa using by linarith

lemma stepGame_preserves_inv (k : Keys) (dt rnd : ℝ)
    (phys : Body → Body → Body → Body × Body × Body) (s : GameState)
    (hdt : 0 ≤ dt) (h : BoostTimerInv s) :
    BoostTimerInv (stepGame k dt rnd phys s) := by
  obtain ⟨hb0, hb1, ht0, ht1⟩ := h
  by_cases hp : s.isPaused = true
  · rw [stepGame_paused _ _ _ _ _ hp]; exact ⟨hb0, hb1, ht0, ht1⟩
  · rw [stepGame_not_paused _ _ _ _ _ (by simpa using hp)]
    have htime := updateTimer_time_bound dt s hdt ht0 ht1
    have hboost := handleInput_boost_bound k dt (updateTimer dt s)
      (by simpa using hb0) (by simpa using hb1)
    simp only [logicStep]
    refine ⟨?_, ?_, ?_, ?_⟩
    · rcases handleBoostPickups_boost_cases
        (updateBoostPads dt (handleGoalCheck dt
          (handleAI dt rnd (handleInput k dt (updateTimer dt s))))) with hc | hc <;>
        simp only [applyPhysics_playerBoost, hc, updateBoostPads_playerBoost,
          handleGoalCheck_playerBoost, handleAI_playerBoost] <;>
        first
          | exact hboost.1
          | norm_num
    · rcases handleBoostPickups_boost_cases
        (updateBoostPads dt (handleGoalCheck dt
          (handleAI dt rnd (handleInput k dt (updateTimer dt s))))) with hc | hc <;>
        simp only [applyPhysics_playerBoost, hc, updateBoostPads_playerBoost,
          handleGoalCheck_playerBoost, handleAI_playerBoost] <;>
        first
          | exact hboost.2
          | norm_num
    · simpa using htime.1
    · simpa using htime.2

/-! ### Claim theorems -/

/-- C1: For every sequence of frame updates with nonnegative `dt`,
starting from any state satisfying the invariant (in particular the
initial state), the player's boost stays within `[0, 100]` and the match
timer stays within `[0, MATCH_DURATION]` at every frame boundary. -/
theorem boost_timer_invariant (fs : List Frame) (s : GameState)
    (hdt : ∀ f ∈ fs, 0 ≤ f.dt) (hs : BoostTimerInv s) :
    BoostTimerInv (runFrames fs s) := by
  induction fs generalizing s with
  | nil => exact hs
  | cons f t ih =>
      simp only [runFrames, List.foldl_cons]
      exact ih _ (fun g hg => hdt g (List.mem_cons_of_mem f hg))
        (stepGame_preserves_inv f.keys f.dt f.rnd f.phys s
          (hdt f (List.mem_cons_self f t)) hs)

theorem boost_timer_invariant_witness :
    BoostTimerInv
      (runFrames [{ keys := keysNone, dt := 1, rnd := 0, phys := physId }]
        initState) :=
  boost_timer_invariant _ _
    (by
      rintro f hf
      simp only [List.mem_singleton] at hf
      subst hf
      norm_num)
    (by
      refine ⟨?_, ?_, ?_, ?_⟩ <;> norm_num [initState, MATCH_DURATION])

/-- C4: Once the goal-reset window is active and does not expire this
frame, a frame update changes neither score; moreover any single frame
increments the two scores by at most one in total. -/
theorem goal_reset_idempotent (k : Keys) (dt rnd : ℝ)
    (phys : Body → Body → Body → Body × Body × Body) (s : GameState) :
    (s.isResetting = true → s.resetTimer + dt < RESET_DELAY →
      (stepGame k dt rnd phys s).playerScore = s.playerScore ∧
        (stepGame k dt rnd phys s).aiScore = s.aiScore) ∧
    (stepGame k dt rnd phys s).playerScore + (stepGame k dt rnd phys s).aiScore
      ≤ s.playerScore + s.aiScore + 1 := by
  by_cases hp : s.isPaused = true
  · rw [stepGame_paused _ _ _ _ _ hp]
    exact ⟨fun _ _ => ⟨rfl, rfl⟩, by omega⟩
  rw [stepGame_not_paused _ _ _ _ _ (by simpa using hp)]
  simp only [logicStep]
  constructor
  · intro hr hd
    have hin := handleInput_resetState_hold k dt (updateTimer dt s)
      (by simpa using hr) (by simpa using not_le.mpr hd)
    have hg := handleGoalCheck_scores_of_resetting dt
      (handleAI dt rnd (handleInput k dt (updateTimer dt s)))
      (by simpa using hin.1)
    constructor <;> simp [hg.1, hg.2]
  · have hg := handleGoalCheck_scores_le dt
      (handleAI dt rnd (handleInput k dt (updateTimer dt s)))
    simpa using hg

theorem goal_reset_idempotent_witness :
    (stepGame keysNone (1 / 2) 1 physId resettingState).playerScore
        = resettingState.playerScore ∧
      (stepGame keysNone (1 / 2) 1 physId resettingState).aiScore
        = resettingState.aiScore :=
  (goal_reset_idempotent keysNone (1 / 2) 1 physId resettingState).1 rfl
    (by norm_num [resettingState, initState, RESET_DELAY])

/-- C7: Pause is a frame-level no-op: a frame that starts paused runs
nothing at all (timer, controllers, goal check, pads, pickups and the
physics step are all skipped and the state is returned unchanged), and
toggling pause twice with no frame in between restores the original
state exactly. -/
theorem pause_noop (k : Keys) (dt rnd : ℝ)
    (phys : Body → Body → Body → Body × Body × Body) (s : GameState) :
    (s.isPaused = true → stepGame k dt rnd phys s = s) ∧
      togglePause (togglePause s) = s := by
  refine ⟨fun h => stepGame_paused _ _ _ _ _ h, ?_⟩
  cases s
  simp [togglePause]

theorem pause_noop_witness :
    stepGame keysNone 1 0 physId { initState with isPaused := true }
      = { initState with isPaused := true } :=
  (pause_noop keysNone 1 0 physId { initState with isPaused := true }).1 rfl

/-- C8: For each pad that is active and within the squared pickup radius
of the player, the pickup pass sets the boost meter to exactly 100 (a
full refill, not additive), deactivates the pad and sets its cooldown to
`BOOST_PAD_COOLDOWN`; a pad that is inactive can never satisfy the
pickup test, is left unchanged by the pickup pass, and while its
cooldown has not reached 0 the decay pass only decrements the cooldown,
keeping it inactive. -/
theorem boost_pad_pickup_spec (s : GameState) (dt : ℝ) :
    (handleBoostPickups s).boostPads
      = s.boostPads.map (fun pad =>
          if padHit s.playerBody.x s.playerBody.z pad then
            { pad with active := false, cooldown := BOOST_PAD_COOLDOWN }
          else pad) ∧
    ((∃ pad ∈ s.boostPads, padHit s.playerBody.x s.playerBody.z pad) →
      (handleBoostPickups s).playerBoost = 100) ∧
    ((∀ pad ∈ s.boostPads, ¬ padHit s.playerBody.x s.playerBody.z pad) →
      (handleBoostPickups s).playerBoost = s.playerBoost) ∧
    (∀ pad : Pad, pad.active = false →
      ¬ padHit s.playerBody.x s.playerBody.z pad) ∧
    (∀ pad : Pad, pad.active = false →
      (0 < pad.cooldown - dt →
        updatePad dt pad = { pad with cooldown := pad.cooldown - dt }) ∧
      (pad.cooldown - dt ≤ 0 →
        updatePad dt pad = { pad with active := true, cooldown := 0 })) := by
  refine ⟨?_, ?_, ?_, ?_, ?_⟩
  · simp only [handleBoostPickups]
    rw [pickup_foldl_pads]
    simp
  · intro h
    simp only [handleBoostPickups]
    exact pickup_foldl_boost_of_hit _ _ _ _ _ h
  · intro h
    simp only [handleBoostPickups]
    exact pickup_foldl_boost_of_none _ _ _ _ _ h
  · rintro pad hinactive ⟨hactive, -⟩
    rw [hinactive] at hactive
    exact Bool.false_ne_true hactive
  · intro pad hinactive
    constructor <;> intro hc <;> simp only [updatePad, hinactive] <;>
      simp_all [not_le.mpr]

theorem boost_pad_pickup_spec_witness :
    (handleBoostPickups
      { initState with
        playerBody := { initPlayer with x := PITCH_LENGTH / 4, z := PITCH_WIDTH / 3 } }).playerBoost
      = 100 :=
  (boost_pad_pickup_spec
    { initState with
      playerBody := { initPlayer with x := PITCH_LENGTH / 4, z := PITCH_WIDTH / 3 } } 1).2.1
    ⟨{ posX := PITCH_LENGTH / 4, posZ := PITCH_WIDTH / 3, active := true, cooldown := 0 },
      by simp [initState, initPads],
      by constructor <;> norm_num [BOOST_PAD_RADIUS]⟩

/-- C10: whenever KeyR is held, the ball-reset branch of the input
handler runs before the reset-window guard, so on any frame (including
frames inside the GOAL_RESET freeze) the game-logic pipeline leaves the
ball at the centre-kickoff position with zero linear and angular
velocity. -/
theorem keyR_resets_ball (k : Keys) (dt rnd : ℝ) (s : GameState)
    (hR : k.keyR = true) :
    (logicStep k dt rnd s).ballBody.x = 0 ∧
    (logicStep k dt rnd s).ballBody.y = BALL_RADIUS + 0.5 ∧
    (logicStep k dt rnd s).ballBody.z = 0 ∧
    (logicStep k dt rnd s).ballBody.vx = 0 ∧
    (logicStep k dt rnd s).ballBody.vy = 0 ∧
    (logicStep k dt rnd s).ballBody.vz = 0 ∧
    (logicStep k dt rnd s).ballBody.wx = 0 ∧
    (logicStep k dt rnd s).ballBody.wy = 0 ∧
    (logicStep k dt rnd s).ballBody.wz = 0 := by
  have hin := handleInput_ballBody_keyR k dt (updateTimer dt s) hR
  have hball : (logicStep k dt rnd s).ballBody
      = (resetBall (updateTimer dt s)).ballBody := by
    simp only [logicStep, handleBoostPickups_ballBody, updateBoostPads_ballBody]
    rw [handleGoalCheck_ballBody_of_infield]
    · rw [handleAI_ballBody, hin]
    · rw [handleAI_ballBody, hin]
      norm_num [resetBall, goalXPlayer, PITCH_LENGTH]
    · rw [handleAI_ballBody, hin]
      norm_num [resetBall, goalXAI, PITCH_LENGTH]
  rw [hball]
  refine ⟨rfl, rfl, rfl, rfl, rfl, rfl, rfl, rfl, rfl⟩

/-- While the reset window is active, the trailing timer block of
`handleGoalCheck` is the only part that runs, so every body, heading,
pad and score is left untouched. -/
lemma handleGoalCheck_frozen (dt : ℝ) (s : GameState)
    (h : s.isResetting = true) :
    (handleGoalCheck dt s).playerBody = s.playerBody ∧
      (handleGoalCheck dt s).playerHeading = s.playerHeading ∧
      (handleGoalCheck dt s).aiBody = s.aiBody ∧
      (handleGoalCheck dt s).aiHeading = s.aiHeading ∧
      (handleGoalCheck dt s).ballBody = s.ballBody ∧
      (handleGoalCheck dt s).boostPads = s.boostPads := by
  by_cases hd : RESET_DELAY ≤ s.resetTimer + dt
  · rw [handleGoalCheck_reset_expire dt s h hd]
    exact ⟨rfl, rfl, rfl, rfl, rfl, rfl⟩
  · rw [handleGoalCheck_reset_hold dt s h hd]
    exact ⟨rfl, rfl, rfl, rfl, rfl, rfl⟩

/-- The steering part of the player controller, read off the record. -/
lemma handleInputMain_playerHeading (k : Keys) (dt : ℝ) (s : GameState) :
    (handleInputMain k dt s).playerHeading
      = (if k.keyD = true then
          (if k.keyA = true then s.playerHeading + PLAYER_TURN_SPEED * dt
            else s.playerHeading) - PLAYER_TURN_SPEED * dt
         else
          (if k.keyA = true then s.playerHeading + PLAYER_TURN_SPEED * dt
            else s.playerHeading)) := rfl

lemma wrapAngle_zero : wrapAngle 0 = 0 := by
  unfold wrapAngle jsMod jsTrunc
  rw [zero_add,
    show Real.pi / (2 * Real.pi) = 1 / 2 by
      rw [mul_comm, ← div_div, div_self Real.pi_ne_zero]]
  norm_num [Int.floor_eq_zero_iff]

/-- C2: the reset-delay accumulator is incremented in both `handleInput`
and `handleGoalCheck`, so a single frame of `dt = 1/2` during the freeze
advances `resetTimer` by `1`, twice the frame's `dt`: the freeze ends
once the double-counted accumulator reaches `RESET_DELAY`, i.e. after
about half of `RESET_DELAY` in accumulated frame time. -/
theorem reset_timer_double_tick :
    (stepGame keysNone (1 / 2) 1 physId resettingState).resetTimer = 1 ∧
      (stepGame keysNone (1 / 2) 1 physId resettingState).isResetting = true := by
  rw [stepGame_not_paused _ _ _ _ _ rfl]
  have hu1 : (updateTimer (1 / 2) resettingState).isResetting = true := by
    simp [resettingState]
  have hu2 : (updateTimer (1 / 2) resettingState).resetTimer = 0 := by
    simp [resettingState, initState]
  have hv := handleInput_resetState_hold keysNone (1 / 2)
    (updateTimer (1 / 2) resettingState) hu1
    (by rw [hu2]; norm_num [RESET_DELAY])
  set v := handleInput keysNone (1 / 2) (updateTimer (1 / 2) resettingState)
    with hvdef
  have ht1 : (handleAI (1 / 2) 1 v).isResetting = true := by
    rw [handleAI_isResetting]; exact hv.1
  have ht2 : (handleAI (1 / 2) 1 v).resetTimer = 1 / 2 := by
    rw [handleAI_resetTimer, hv.2, hu2]; norm_num
  have hg := handleGoalCheck_reset_hold (1 / 2) (handleAI (1 / 2) 1 v) ht1
    (by rw [ht2]; norm_num [RESET_DELAY])
  constructor
  · simp only [applyPhysics_resetTimer, logicStep, handleBoostPickups_resetTimer,
      updateBoostPads_resetTimer, hg]
    rw [ht2]; norm_num
  · simp only [applyPhysics_isResetting, logicStep, handleBoostPickups_isResetting,
      updateBoostPads_isResetting, hg]
    exact ht1

/-- C3: full time is not terminal for the scores: with the match over
(`remainingTime = 0`, `isMatchOver` set) and the ball beyond the player
goal line, the very next frame still increments `aiScore` — the goal
check has no match-over guard. -/
theorem fulltime_goal_still_scores :
    fullTimeState.isMatchOver = true ∧ fullTimeState.remainingTime = 0 ∧
      (stepGame keysNone (1 / 2) 1 physId fullTimeState).aiScore
        = fullTimeState.aiScore + 1 := by
  refine ⟨rfl, rfl, ?_⟩
  rw [stepGame_not_paused _ _ _ _ _ rfl]
  have hu : updateTimer (1 / 2) fullTimeState = fullTimeState :=
    updateTimer_of_matchOver (1 / 2) fullTimeState rfl
  have hiv : handleInput keysNone (1 / 2) fullTimeState
      = handleInputMain keysNone (1 / 2) fullTimeState := by
    rw [handleInput_of_not_resetting _ _ _ rfl]
    simp [keysNone]
  simp only [applyPhysics_aiScore, logicStep, handleBoostPickups_aiScore,
    updateBoostPads_aiScore, hu, hiv]
  set t := handleAI (1 / 2) 1 (handleInputMain keysNone (1 / 2) fullTimeState)
    with htdef
  have ht_res : t.isResetting = false := by
    rw [htdef, handleAI_isResetting, handleInputMain_isResetting]; rfl
  have hx : t.ballBody.x = -45 := by
    rw [htdef, handleAI_ballBody, handleInputMain_ballBody]; rfl
  have hz : t.ballBody.z = 0 := by
    rw [htdef, handleAI_ballBody, handleInputMain_ballBody]; rfl
  have hsc : t.aiScore = 0 := by
    rw [htdef, handleAI_aiScore, handleInputMain_aiScore]; rfl
  simp only [handleGoalCheck, ht_res, hx, hz, hsc]
  norm_num [goalXPlayer, GOAL_WIDTH, PITCH_LENGTH, RESET_DELAY, fullTimeState,
    initState]

/-- C5 (amended): vehicle headings are not wrapped to `(-pi, pi]`:
outside the reset window the steering update changes the player's
heading by exactly plus or minus `PLAYER_TURN_SPEED * dt`, with no
reduction, so the heading accumulates beyond the interval. -/
theorem steering_unwrapped (k : Keys) (dt : ℝ) (s : GameState)
    (h : s.isResetting = false) :
    (handleInput k dt s).playerHeading
      = s.playerHeading + (if k.keyA = true then PLAYER_TURN_SPEED * dt else 0)
        - (if k.keyD = true then PLAYER_TURN_SPEED * dt else 0) := by
  rw [handleInput_of_not_resetting k dt s h, handleInputMain_playerHeading]
  have hph : (if k.keyR = true then resetBall s else s).playerHeading
      = s.playerHeading := by
    split_ifs <;> simp
  rw [hph]
  split_ifs <;> ring

theorem steering_unwrapped_witness :
    (handleInput keysA 1 initState).playerHeading
      = initState.playerHeading
        + (if keysA.keyA = true then PLAYER_TURN_SPEED * 1 else 0)
        - (if keysA.keyD = true then PLAYER_TURN_SPEED * 1 else 0) :=
  steering_unwrapped keysA 1 initState rfl

/-- C5 (counterexample): a single unpaused frame with `dt = 2` and
steer-left held leaves the player heading at `4`, which is outside
`(-pi, pi]` — the frame update does not wrap headings. -/
theorem heading_wrap_cex :
    (stepGame keysA 2 1 physId initState).playerHeading ∉
      Set.Ioc (-Real.pi) Real.pi := by
  have h0 : (updateTimer 2 initState).isResetting = false := by simp [initState]
  have hih : (handleInput keysA 2 (updateTimer 2 initState)).playerHeading = 4 := by
    rw [handleInput_of_not_resetting _ _ _ h0, handleInputMain_playerHeading]
    simp [keysA, keysNone, PLAYER_TURN_SPEED, initState]
    norm_num
  have hfull : (stepGame keysA 2 1 physId initState).playerHeading = 4 := by
    rw [stepGame_not_paused _ _ _ _ _ rfl]
    simp only [applyPhysics_playerHeading, logicStep,
      handleBoostPickups_playerHeading, updateBoostPads_playerHeading]
    have ht_res :
        (handleAI 2 1 (handleInput keysA 2 (updateTimer 2 initState))).isResetting
          = false := by
      rw [handleAI_isResetting,
        handleInput_of_not_resetting _ _ _ h0, handleInputMain_isResetting]
      simp [keysA, keysNone, initState]
    have hx :
        (handleAI 2 1 (handleInput keysA 2 (updateTimer 2 initState))).ballBody.x
          = 0 := by
      rw [handleAI_ballBody,
        handleInput_of_not_resetting _ _ _ h0, handleInputMain_ballBody]
      simp [keysA, keysNone, initState, initBall]
    rw [handleGoalCheck_no_goal 2 _ ht_res
        (by rw [hx]; norm_num [goalXPlayer, PITCH_LENGTH])
        (by rw [hx]; norm_num [goalXAI, PITCH_LENGTH]),
      handleAI_playerHeading, hih]
  rw [hfull]
  intro hmem
  exact absurd hmem.2 (not_le.mpr Real.pi_lt_four)

/-- C6 (amended): during the GOAL_RESET freeze the player's control
input is fully suppressed — while the window has not expired, one frame
of game logic leaves the player's body (position, velocities, yaw,
force accumulator) and the player heading untouched; the AI controller,
by contrast, is not gated on the freeze (see the counterexample). -/
theorem reset_freeze_player_suppressed (k : Keys) (dt rnd : ℝ) (s : GameState)
    (h : s.isResetting = true) (h2 : s.resetTimer + dt < RESET_DELAY) :
    (logicStep k dt rnd s).playerBody = s.playerBody ∧
      (logicStep k dt rnd s).playerHeading = s.playerHeading := by
  have hu_res : (updateTimer dt s).isResetting = true := by simpa using h
  have hv := handleInput_reset_hold k dt (updateTimer dt s) hu_res
    (by rw [updateTimer_resetTimer]; exact not_le.mpr h2)
  have hvb : (handleInput k dt (updateTimer dt s)).playerBody = s.playerBody := by
    rw [hv]; split_ifs <;> simp
  have hvh : (handleInput k dt (updateTimer dt s)).playerHeading
      = s.playerHeading := by
    rw [hv]; split_ifs <;> simp
  have hv_res : (handleInput k dt (updateTimer dt s)).isResetting = true := by
    rw [hv]; split_ifs <;> simpa using h
  have hg := handleGoalCheck_frozen dt
    (handleAI dt rnd (handleInput k dt (updateTimer dt s)))
    (by rw [handleAI_isResetting]; exact hv_res)
  constructor
  · simp only [logicStep, handleBoostPickups_playerBody,
      updateBoostPads_playerBody]
    rw [hg.1, handleAI_playerBody, hvb]
  · simp only [logicStep, handleBoostPickups_playerHeading,
      updateBoostPads_playerHeading]
    rw [hg.2.1, handleAI_playerHeading, hvh]

theorem reset_freeze_player_suppressed_witness :
    (logicStep keysNone (1 / 10) 1 resettingState).playerBody
        = resettingState.playerBody ∧
      (logicStep keysNone (1 / 10) 1 resettingState).playerHeading
        = resettingState.playerHeading :=
  reset_freeze_player_suppressed keysNone (1 / 10) 1 resettingState rfl
    (by norm_num [resettingState, initState, RESET_DELAY])

/-- C6 (counterexample): the AI controller is not suppressed during the
GOAL_RESET freeze: on a frame that starts inside the freeze window (so
the delay has not elapsed), the AI body still receives a drive force —
its force accumulator changes from 0 to `-2000`. -/
theorem reset_freeze_ai_cex :
    resettingState.isResetting = true ∧
      resettingState.resetTimer + 1 / 10 < RESET_DELAY ∧
      (logicStep keysNone (1 / 10) 1 resettingState).aiBody.fx
        ≠ resettingState.aiBody.fx := by
  refine ⟨rfl, by norm_num [resettingState, initState, RESET_DELAY], ?_⟩
  have hu_res : (updateTimer (1 / 10) resettingState).isResetting = true := by
    simp [resettingState]
  have hv := handleInput_reset_hold keysNone (1 / 10)
    (updateTimer (1 / 10) resettingState) hu_res
    (by rw [updateTimer_resetTimer]
        norm_num [resettingState, initState, RESET_DELAY])
  have hv_ai : (handleInput keysNone (1 / 10)
      (updateTimer (1 / 10) resettingState)).aiBody = initAI := by
    rw [hv]; simp [keysNone, resettingState, initState]
  have hv_aih : (handleInput keysNone (1 / 10)
      (updateTimer (1 / 10) resettingState)).aiHeading = Real.pi := by
    rw [hv]; simp [keysNone, resettingState, initState]
  have hv_ball : (handleInput keysNone (1 / 10)
      (updateTimer (1 / 10) resettingState)).ballBody = initBall := by
    rw [hv]; simp [keysNone, resettingState, initState]
  have hv_res : (handleInput keysNone (1 / 10)
      (updateTimer (1 / 10) resettingState)).isResetting = true := by
    rw [hv]; simp [keysNone, resettingState, initState]
  have hax : aiToBallX (handleInput keysNone (1 / 10)
      (updateTimer (1 / 10) resettingState)) = -28 := by
    rw [aiToBallX, hv_ball, hv_ai]
    norm_num [initBall, initAI, PITCH_LENGTH]
  have haz : aiToBallZ (handleInput keysNone (1 / 10)
      (updateTimer (1 / 10) resettingState)) = 0 := by
    rw [aiToBallZ, hv_ball, hv_ai]
    norm_num [initBall, initAI]
  have hdist : aiDistToBall (handleInput keysNone (1 / 10)
      (updateTimer (1 / 10) resettingState)) = 28 := by
    rw [aiDistToBall, hax, haz,
      show ((-28 : ℝ)) ^ 2 + 0 ^ 2 = 28 ^ 2 by norm_num,
      Real.sqrt_sq (by norm_num : (0 : ℝ) ≤ 28)]
  have hdes : aiDesiredHeading (handleInput keysNone (1 / 10)
      (updateTimer (1 / 10) resettingState)) = Real.pi := by
    rw [aiDesiredHeading, if_pos (by rw [hdist]; norm_num), hax, haz, hdist]
    norm_num [atan2, Real.arctan_zero]
  have hwd : aiWrappedDiff (handleInput keysNone (1 / 10)
      (updateTimer (1 / 10) resettingState)) = 0 := by
    rw [aiWrappedDiff, hdes, hv_aih, sub_self, wrapAngle_zero]
  have hfx : (handleAI (1 / 10) 1 (handleInput keysNone (1 / 10)
      (updateTimer (1 / 10) resettingState))).aiBody.fx = -2000 := by
    simp only [handleAI, hv_ai, hv_aih, hv_ball, hwd, hdist]
    norm_num [clamp, AI_TURN_SPEED, AI_MAX_SPEED, AI_ACCEL, aiMass,
      initAI, initBall, setBodyHeading, applyForce, isOnGround,
      Real.sqrt_zero, Real.cos_pi]
  have hg := handleGoalCheck_frozen (1 / 10)
    (handleAI (1 / 10) 1 (handleInput keysNone (1 / 10)
      (updateTimer (1 / 10) resettingState)))
    (by rw [handleAI_isResetting]; exact hv_res)
  simp only [logicStep, handleBoostPickups_aiBody, updateBoostPads_aiBody]
  rw [hg.2.2.1, hfx]
  norm_num [resettingState, initState, initAI, initBall]

/-- C9 (amended): the per-frame AI heading change is bounded by
`AI_TURN_SPEED * dt` in magnitude (the clamp alone guarantees this);
the remainder-based angle reduction used before the clamp lands in
`[-pi, pi)` whenever its argument is at least `-pi`, but it is not a
wrap into `(-pi, pi]` (see the counterexample for arguments below
`-pi`). -/
theorem ai_turn_rate_bound (dt rnd : ℝ) (s : GameState) (hdt : 0 ≤ dt) :
    |(handleAI dt rnd s).aiHeading - s.aiHeading| ≤ AI_TURN_SPEED * dt ∧
      ∀ d : ℝ, -Real.pi ≤ d →
        -Real.pi ≤ wrapAngle d ∧ wrapAngle d < Real.pi := by
  constructor
  · rw [handleAI_aiHeading_eq, add_sub_cancel_left]
    exact abs_clamp_le _ _ (mul_nonneg (by norm_num [AI_TURN_SPEED]) hdt)
  · exact fun d hd => wrapAngle_mem d hd

theorem ai_turn_rate_bound_witness :
    |(handleAI 1 0 initState).aiHeading - initState.aiHeading|
      ≤ AI_TURN_SPEED * 1 :=
  (ai_turn_rate_bound 1 0 initState (by norm_num)).1

/-- C9 (counterexample): the claim that the angular difference is
wrapped into `(-pi, pi]` before clamping fails: with the AI at the
origin heading `pi` and the ball diagonally behind it, the reduced
difference is `-(7 pi / 4)`, which lies outside `(-pi, pi]` — the JS
remainder does not normalise negative arguments. -/
theorem ai_wrap_claim_cex :
    ¬ (∀ (dt rnd : ℝ) (s : GameState), 0 ≤ dt →
        |(handleAI dt rnd s).aiHeading - s.aiHeading| ≤ AI_TURN_SPEED * dt ∧
          aiWrappedDiff s ∈ Set.Ioc (-Real.pi) Real.pi) := by
  intro hcl
  have hax : aiToBallX aiWrapState = -1 := by
    norm_num [aiToBallX, aiWrapState, initAI, initBall]
  have haz : aiToBallZ aiWrapState = -1 := by
    norm_num [aiToBallZ, aiWrapState, initAI, initBall]
  have hdist : aiDistToBall aiWrapState = Real.sqrt 2 := by
    rw [aiDistToBall, hax, haz]
    norm_num
  have hsq2pos : (0 : ℝ) < Real.sqrt 2 := Real.sqrt_pos.mpr (by norm_num)
  have hneg : (-1 : ℝ) / Real.sqrt 2 < 0 :=
    div_neg_of_neg_of_pos (by norm_num) hsq2pos
  have hdes : aiDesiredHeading aiWrapState = Real.pi / 4 - Real.pi := by
    rw [aiDesiredHeading,
      if_pos (by
        rw [hdist]
        exact (Real.lt_sqrt (by norm_num)).mpr (by norm_num)),
      hax, haz, hdist]
    unfold atan2
    rw [if_neg (not_lt.mpr hneg.le), if_pos hneg, if_neg (not_le.mpr hneg),
      div_self (ne_of_lt hneg), Real.arctan_one]
  have hwd : aiWrappedDiff aiWrapState = -(7 * Real.pi / 4) := by
    rw [aiWrappedDiff, hdes, show aiWrapState.aiHeading = Real.pi from rfl]
    unfold wrapAngle jsMod jsTrunc
    rw [show Real.pi / 4 - Real.pi - Real.pi + Real.pi = -(3 * Real.pi / 4) by ring,
      show -(3 * Real.pi / 4) / (2 * Real.pi) = -(3 / 8 : ℝ) by
        rw [div_eq_iff (mul_ne_zero two_ne_zero Real.pi_ne_zero)]; ring,
      if_neg (by norm_num)]
    norm_num [Int.floor_eq_zero_iff]
    ring
  have h := (hcl 1 0 aiWrapState (by norm_num)).2
  rw [hwd] at h
  have h1 := h.1
  nlinarith [Real.pi_pos]

theorem keyR_resets_ball_witness :
    (logicStep keysR 1 0 resettingState).ballBody.x = 0 ∧
    (logicStep keysR 1 0 resettingState).ballBody.y = BALL_RADIUS + 0.5 ∧
    (logicStep keysR 1 0 resettingState).ballBody.z = 0 ∧
    (logicStep keysR 1 0 resettingState).ballBody.vx = 0 ∧
    (logicStep keysR 1 0 resettingState).ballBody.vy = 0 ∧
    (logicStep keysR 1 0 resettingState).ballBody.vz = 0 ∧
    (logicStep keysR 1 0 resettingState).ballBody.wx = 0 ∧
    (logicStep keysR 1 0 resettingState).ballBody.wy = 0 ∧
    (logicStep keysR 1 0 resettingState).ballBody.wz = 0 :=
  keyR_resets_ball keysR 1 0 resettingState rfl

end RL
